import Mathlib

/-!
Verification development for the `fui` Discord storefront.

We give a shallow embedding of the order store (`src/crystal/utils/crypto.js`,
third document: `upsertOrder`, `getOrderById`, `getOrderByChannelId`, `markPaid`),
the two webhook handlers and the interaction handlers of `src/crystal/index.js`,
the guarded product-selection handler of `src/unnamed/part_004`, and the two
payment-gateway adapters (`src/unnamed/part_005` and
`src/crystal/utils/crypto.js`, second document).

The store file holds JavaScript objects, so the raw store layer is modelled as
association lists of string fields (`JsObj`).  The interaction and webhook
handlers only ever build and consume fully populated order records, so the
lifecycle layer uses a fixed-shape `Order` structure; for such fully populated
records the JavaScript spread merge of `upsertOrder` coincides with plain
replacement, which the structured `upsertOrder` below performs.

The wall clock (`new Date().toISOString()`) is passed in as an explicit `now`
argument; outbound network calls (checkout/invoice creation, Discord messages)
are modelled by their request payloads and by lists of performed notifications.
JavaScript numbers are idealised as exact rationals.
-/

set_option autoImplicit false

namespace Fui

/-! ### Raw store layer: JavaScript objects as association lists -/

/-- A JavaScript object as stored in `orders.json`: a finite list of
string-valued fields, first occurrence of a key wins on lookup. -/
abbrev JsObj := List (String × String)

/-- Field access `o.k`: the value of the first field named `k`, if any. -/
def jsLookup (o : JsObj) (k : String) : Option String :=
  match o with
  | [] => none
  | kv :: rest => if kv.1 = k then some kv.2 else jsLookup rest k

/-- The JavaScript spread merge `\x7b ...old, ...nw \x7d`: every field of `old`,
with its value replaced when `nw` also defines the key, followed by the fields
of `nw` that `old` does not define. -/
def jsMerge (old nw : JsObj) : JsObj :=
  old.map (fun kv =>
    match jsLookup nw kv.1 with
    | some v => (kv.1, v)
    | none => kv)
  ++ nw.filter (fun kv => (jsLookup old kv.1).isNone)

/-- The store mutation of `upsertOrder` (store: `crypto.js` lines 89-96):
`findIndex` on `id` equality; on a hit the slot is replaced by the spread merge
of the new record over the old one, otherwise the record is pushed at the end. -/
def upsertStoreJs (order : JsObj) : List JsObj → List JsObj
  | [] => [order]
  | o :: os =>
    if jsLookup o "id" = jsLookup order "id" then jsMerge o order :: os
    else o :: upsertStoreJs order os

/-- `upsertOrder(order)` on raw records: mutates the store as `upsertStoreJs`
and returns the `order` argument itself (the source ends with `return order`). -/
def upsertOrderJs (order : JsObj) (orders : List JsObj) : List JsObj × JsObj :=
  (upsertStoreJs order orders, order)

/-! ### Structured order model -/

/-- The product snapshot `\x7bid, name, price\x7d` taken at selection time. -/
structure Product where
  id : String
  name : String
  price : ℚ
deriving DecidableEq, Repr

/-- The `payment` sub-record of an order. -/
structure Payment where
  method : Option String
  provider : Option String
  url : Option String
  transactionId : Option String
  paidAmount : Option String
deriving DecidableEq, Repr

/-- The four-field object both webhook handlers pass to `markPaid`:
`\x7bmethod, provider, transactionId, paidAmount\x7d`.  A `none` models the
JavaScript `null`, which on merge still overwrites the old field. -/
structure PaymentFields where
  method : Option String
  provider : Option String
  transactionId : Option String
  paidAmount : Option String
deriving DecidableEq, Repr

/-- An order record as built by the product-selection handler. -/
structure Order where
  id : String
  status : String
  createdAt : String
  paidAt : Option String
  guildId : String
  channelId : String
  userId : String
  userTag : String
  product : Product
  payment : Payment
deriving DecidableEq, Repr

/-- `getOrderById(id)`: first stored order whose `id` matches, if any. -/
def getOrderById (id : String) : List Order → Option Order
  | [] => none
  | o :: os => if o.id = id then some o else getOrderById id os

/-- `getOrderByChannelId(channelId)`: first stored order for the channel. -/
def getOrderByChannelId (channelId : String) : List Order → Option Order
  | [] => none
  | o :: os => if o.channelId = channelId then some o else getOrderByChannelId channelId os

/-- `upsertOrder(order)` on fully populated records: replace the first record
with the same `id`, else push at the end.  (On full records the spread merge
`\x7b...old, ...order\x7d` of the source equals `order`, since every field of
`old` is overwritten; the general merge lives in `upsertStoreJs`.) -/
def upsertOrder (order : Order) : List Order → List Order
  | [] => [order]
  | o :: os => if o.id = order.id then order :: os else o :: upsertOrder order os

/-- The payment merge `\x7b ...order.payment, ...payment \x7d` performed by
`markPaid` for the four-field objects passed at both call sites: `method`,
`provider`, `transactionId` and `paidAmount` are overwritten (a `null` value
overwrites too, since the key is present), `url` is retained. -/
def applyPaidFields (p : Payment) (f : PaymentFields) : Payment :=
  { method := f.method
    provider := f.provider
    url := p.url
    transactionId := f.transactionId
    paidAmount := f.paidAmount }

/-- The record mutation of `markPaid` (store: `crypto.js` lines 108-116):
`status = "paid"`, `paidAt = new Date().toISOString()` (the `now` argument),
and the payment merge. -/
def markPaidOrder (o : Order) (f : PaymentFields) (now : String) : Order :=
  { o with status := "paid", paidAt := some now, payment := applyPaidFields o.payment f }

/-- `markPaid(id, payment)`: `null` and an unchanged store when the id is
unknown, otherwise the mutated record is upserted and returned. -/
def markPaid (id : String) (f : PaymentFields) (now : String) (s : List Order) :
    Option Order × List Order :=
  match getOrderById id s with
  | none => (none, s)
  | some o => (some (markPaidOrder o f now), upsertOrder (markPaidOrder o f now) s)

/-! ### JavaScript truthiness helpers -/

/-- Truthiness of an optional string: `null`, `undefined` and `""` are falsy. -/
def truthy (v : Option String) : Option String :=
  match v with
  | some s => if s = "" then none else some s
  | none => none

/-- The JavaScript `a || b` on optional strings. -/
def jsOr (a b : Option String) : Option String :=
  match truthy a with
  | some s => some s
  | none => b

/-- `String.prototype.toLowerCase` for the ASCII payloads this system sees. -/
def jsToLower (s : String) : String := String.mk (s.data.map Char.toLower)

/-- `String.prototype.startsWith`. -/
def strStartsWith (s p : String) : Bool := decide (s.data.take p.data.length = p.data)

/-- `String.prototype.trim`: drop whitespace at both ends. -/
def strTrim (s : String) : String :=
  String.mk (((s.data.dropWhile Char.isWhitespace).reverse.dropWhile Char.isWhitespace).reverse)

/-! ### Payment gateway adapters -/

/-- JavaScript `Math.round`: round half toward positive infinity. -/
def jsRound (q : ℚ) : ℤ := ⌊q + 1 / 2⌋

/-- The decimal digit character for `n < 10`. -/
def digitChar (n : ℕ) : Char := Char.ofNat (48 + n)

/-- `Number(x).toFixed(2)` for the non-negative amounts this system handles,
over exact rationals: the integer-dollar digits, a point, then the two cent
digits of the rounded cent amount. -/
def toFixed2 (q : ℚ) : String :=
  let cents := (jsRound (q * 100)).toNat
  toString (cents / 100) ++ "." ++ String.mk [digitChar (cents / 10 % 10), digitChar (cents % 10)]

/-- The checkout-creation request built by `createStripeCheckout`
(`src/unnamed/part_005` lines 9-29): one quantity-1 line item in `usd` with
`unit_amount = Math.round(Number(amountUsd) * 100)`, the order id as metadata,
and defaulted success and cancel URLs. -/
structure StripeCheckoutRequest where
  currency : String
  unit_amount : ℤ
  product_name : String
  quantity : ℕ
  metadata_orderId : String
  success_url : String
  cancel_url : String
deriving DecidableEq, Repr

/-- `createStripeCheckout` as the request payload it sends. -/
def createStripeCheckout (amountUsd : ℚ) (orderId productName : String)
    (successUrl cancelUrl : Option String) : StripeCheckoutRequest :=
  { currency := "usd"
    unit_amount := jsRound (amountUsd * 100)
    product_name := productName
    quantity := 1
    metadata_orderId := orderId
    success_url := (truthy successUrl).getD "https://example.com/success"
    cancel_url := (truthy cancelUrl).getD "https://example.com/cancel" }

/-- The invoice-creation body built by `createCryptomusInvoice`
(`src/crystal/utils/crypto.js`, second document, lines 25-58). -/
structure CryptomusInvoiceBody where
  amount : String
  currency : String
  order_id : String
  url_return : Option String
  url_callback : Option String
  is_payment_multiple : Bool
  lifetime : ℕ
  additional_data : String
deriving DecidableEq, Repr

/-- `createCryptomusInvoice` as the request body it sends:
`amount: String(Number(amountUsd).toFixed(2))`, `currency: "USD"`, the order id
as `order_id`, optional return and callback URLs, and defaults. -/
def createCryptomusInvoiceBody (amountUsd : ℚ) (orderId : String)
    (description successUrl callbackUrl : Option String) : CryptomusInvoiceBody :=
  { amount := toFixed2 amountUsd
    currency := "USD"
    order_id := orderId
    url_return := truthy successUrl
    url_callback := truthy callbackUrl
    is_payment_multiple := false
    lifetime := 3600
    additional_data := (truthy description).getD "" }

/-! ### Webhook reconciler -/

/-- `isCryptomusWebhookTrusted` (`crypto.js`, second document): returns `true`
when no secret is configured, and still `true` when one is. -/
def isCryptomusWebhookTrusted (secret : Option String) : Bool :=
  match truthy secret with
  | none => true
  | some _ => true

/-- The fields of a Cryptomus callback payload the handler reads. -/
structure CryptomusPayload where
  order_id : Option String
  status : Option String
  uuid : Option String
  txid : Option String
  payment_uuid : Option String
  amount : Option String
deriving DecidableEq, Repr

/-- The outcome of a webhook handler: HTTP status, resulting store, and the
orders for which a paid notification was posted. -/
structure WebhookResult where
  httpStatus : ℕ
  store : List Order
  notified : List Order
deriving DecidableEq, Repr

/-- `String(payload?.status || "").toLowerCase()`. -/
def cryptomusStatusOf (p : CryptomusPayload) : String :=
  jsToLower ((truthy p.status).getD "")

/-- The paid-status set of the Cryptomus handler. -/
def paidStatuses : List String := ["paid", "paid_over", "paid_partial"]

/-- `POST /webhook/cryptomus` (`src/crystal/index.js` lines 31-55): trust check
(always true), `200` when `order_id` is falsy, `200` with no state change when
the lowercased status is outside the paid set, otherwise `markPaid` with the
crypto payment fields followed by a notification when an order was found;
`200` in every branch, the catch clause included. -/
def cryptomusWebhook (secret : Option String) (p : CryptomusPayload) (now : String)
    (s : List Order) : WebhookResult :=
  if isCryptomusWebhookTrusted secret = false then ⟨401, s, []⟩
  else
    match truthy p.order_id with
    | none => ⟨200, s, []⟩
    | some oid =>
      if cryptomusStatusOf p ∈ paidStatuses then
        match markPaid oid
            { method := some "crypto"
              provider := some "cryptomus"
              transactionId := jsOr p.uuid (jsOr p.txid (jsOr p.payment_uuid none))
              paidAmount := truthy p.amount } now s with
        | (some o, s2) => ⟨200, s2, [o]⟩
        | (none, s2) => ⟨200, s2, []⟩
      else ⟨200, s, []⟩

/-- The fields of a Stripe `checkout.session` object the handler reads. -/
structure StripeSession where
  payment_intent : Option String
  id : Option String
  amount_total : Option ℕ
  metadata_orderId : Option String
deriving DecidableEq, Repr

/-- A parsed Stripe event. -/
structure StripeEvent where
  type : String
  data_object : StripeSession
deriving DecidableEq, Repr

/-- The display string `$` + `(amount_total / 100).toFixed(2)`. -/
def centsToDollarDisplay (n : ℕ) : String := "$" ++ toFixed2 ((n : ℚ) / 100)

/-- `POST /webhook/stripe` (`src/crystal/index.js` lines 57-88).
`stripeKeyPresent = false` models `getStripe` throwing for a missing secret
key; with a configured webhook secret the event is the result of
`stripe.webhooks.constructEvent` (`none` models the exception thrown on a
failed signature verification), otherwise the raw body is parsed (`none`
models a parse error).  Every exception is caught and acknowledged with `200`;
every branch, the catch clause included, responds `200`. -/
def stripeWebhook (stripeKeyPresent : Bool) (whSecret : Option String)
    (constructedEvent parsedEvent : Option StripeEvent) (now : String)
    (s : List Order) : WebhookResult :=
  if stripeKeyPresent = false then ⟨200, s, []⟩
  else
    match (match truthy whSecret with
           | some _ => constructedEvent
           | none => parsedEvent) with
    | none => ⟨200, s, []⟩
    | some ev =>
      if ev.type = "checkout.session.completed" then
        match truthy ev.data_object.metadata_orderId with
        | none => ⟨200, s, []⟩
        | some oid =>
          match markPaid oid
              { method := some "stripe"
                provider := some "stripe"
                transactionId := jsOr ev.data_object.payment_intent (jsOr ev.data_object.id none)
                paidAmount :=
                  match ev.data_object.amount_total with
                  | some n => if n ≠ 0 then some (centsToDollarDisplay n) else none
                  | none => none } now s with
          | (some o, s2) => ⟨200, s2, [o]⟩
          | (none, s2) => ⟨200, s2, []⟩
      else ⟨200, s, []⟩

/-! ### Interaction handlers -/

/-- The interaction context fields a product-selection handler reads. -/
structure ChooseCtx where
  guildId : String
  channelId : String
  userId : String
  userTag : String
deriving DecidableEq, Repr

/-- The all-null initial payment sub-record of a fresh order. -/
def emptyPayment : Payment :=
  { method := none, provider := none, url := none, transactionId := none, paidAmount := none }

/-- The fresh order object built on product selection (`src/crystal/index.js`
lines 218-229): a generated id, status `pending`, the creation timestamp, the
interaction context, the product snapshot and an all-null payment record. -/
def newOrder (orderId now : String) (ctx : ChooseCtx) (prod : Product) : Order :=
  { id := orderId
    status := "pending"
    createdAt := now
    paidAt := none
    guildId := ctx.guildId
    channelId := ctx.channelId
    userId := ctx.userId
    userTag := ctx.userTag
    product := { id := prod.id, name := prod.name, price := prod.price }
    payment := emptyPayment }

/-- The reply a product-selection handler posts. -/
inductive ChooseReply where
  | productNotFound
  | choosePayment
  | useInsideTicket
  | onlyOwnerOrStaff
  | alreadyPending (orderId : String)
deriving DecidableEq, Repr

/-- `products.find(p => p.id === prodId)`. -/
def findProduct (prodId : String) : List Product → Option Product
  | [] => none
  | p :: ps => if p.id = prodId then some p else findProduct prodId ps

/-- The `choose_prod` handler of `src/crystal/index.js` (lines 213-240): look
the product up, build a fresh pending order and upsert it.  This variant
performs no check for an order already attached to the channel. -/
def chooseProd (products : List Product) (prodId orderId now : String)
    (ctx : ChooseCtx) (s : List Order) : List Order × ChooseReply :=
  match findProduct prodId products with
  | none => (s, .productNotFound)
  | some prod => (upsertOrder (newOrder orderId now ctx prod) s, .choosePayment)

/-- The `choose_prod` handler of `src/unnamed/part_004` (lines 337-365): same
as `chooseProd` but guarded — it requires a ticket channel and the ticket
owner or staff, and when `getOrderByChannelId` finds an order whose status is
not `paid` it replies with the existing order id and creates nothing. -/
def chooseProdV4 (inTicketChannel isOwnerOrStaff : Bool)
    (products : List Product) (prodId orderId now : String)
    (ctx : ChooseCtx) (s : List Order) : List Order × ChooseReply :=
  if inTicketChannel = false then (s, .useInsideTicket)
  else if isOwnerOrStaff = false then (s, .onlyOwnerOrStaff)
  else
    match findProduct prodId products with
    | none => (s, .productNotFound)
    | some prod =>
      match getOrderByChannelId ctx.channelId s with
      | some ex =>
        if ex.status ≠ "paid" then (s, .alreadyPending ex.id)
        else (upsertOrder (newOrder orderId now ctx prod) s, .choosePayment)
      | none => (upsertOrder (newOrder orderId now ctx prod) s, .choosePayment)

/-- The orders of a channel still in status `pending`. -/
def pendingOrdersFor (channelId : String) (s : List Order) : List Order :=
  s.filter (fun o => o.channelId == channelId && o.status == "pending")

/-- The reply a pay-button handler posts. -/
inductive PayReply where
  | orderNotFound
  | alreadyPaid
  | linkSent
deriving DecidableEq, Repr

/-- The record update of the `pay_crypto` handler (`src/crystal/index.js`
line 258): spread of the full order with `method`, `provider`, `url` and
`transactionId` replaced inside `payment`. -/
def payCryptoUpdate (o : Order) (invUrl invUuid : Option String) : Order :=
  { o with payment := { o.payment with
      method := some "crypto", provider := some "cryptomus",
      url := invUrl, transactionId := invUuid } }

/-- The record update of the `pay_stripe` handler (`src/crystal/index.js`
line 284). -/
def payStripeUpdate (o : Order) (sessionUrl sessionId : Option String) : Order :=
  { o with payment := { o.payment with
      method := some "stripe", provider := some "stripe",
      url := sessionUrl, transactionId := sessionId } }

/-- The `pay_crypto` handler (`src/crystal/index.js` lines 242-263) as its
store effect: not-found and already-paid guards, then the upsert of the
updated record.  The invoice URL and uuid returned by the gateway call are
passed in as arguments. -/
def payCryptoHandler (orderId : String) (invUrl invUuid : Option String)
    (s : List Order) : List Order × PayReply :=
  match getOrderById orderId s with
  | none => (s, .orderNotFound)
  | some o =>
    if o.status = "paid" then (s, .alreadyPaid)
    else (upsertOrder (payCryptoUpdate o invUrl invUuid) s, .linkSent)

/-- The `pay_stripe` handler (`src/crystal/index.js` lines 266-289) as its
store effect. -/
def payStripeHandler (orderId : String) (sessionUrl sessionId : Option String)
    (s : List Order) : List Order × PayReply :=
  match getOrderById orderId s with
  | none => (s, .orderNotFound)
  | some o =>
    if o.status = "paid" then (s, .alreadyPaid)
    else (upsertOrder (payStripeUpdate o sessionUrl sessionId) s, .linkSent)

/-! ### Closing workflow (`+dn`) -/

/-- The observable actions of one `+dn` message handling. -/
structure DnActions where
  warned : Bool
  countdown : Bool
  invoiceGenerated : Bool
  deleteScheduled : Bool
deriving DecidableEq, Repr

/-- No action taken. -/
def noDnActions : DnActions :=
  { warned := false, countdown := false, invoiceGenerated := false, deleteScheduled := false }

/-- The `MessageCreate` close handler (`src/crystal/index.js` lines 322-394):
guards (guild message, `ticket-` channel, exact trimmed `+dn`, owner or
manage-channels permission); for an order not marked `paid` the per-channel
force counter is incremented and a counter below 2 only warns; otherwise the
countdown is posted, an invoice is generated exactly when an order exists, and
the channel deletion is scheduled. -/
def dnHandler (inGuild : Bool) (channelName content : String) (isOwner hasManage : Bool)
    (order : Option Order) (forceCount : ℕ) : DnActions × ℕ :=
  if inGuild = false then (noDnActions, forceCount)
  else if strStartsWith channelName "ticket-" = false then (noDnActions, forceCount)
  else if strTrim content ≠ "+dn" then (noDnActions, forceCount)
  else if isOwner = false ∧ hasManage = false then (noDnActions, forceCount)
  else
    match order with
    | some o =>
      if o.status ≠ "paid" then
        if forceCount + 1 < 2 then
          ({ warned := true, countdown := false, invoiceGenerated := false,
             deleteScheduled := false }, forceCount + 1)
        else
          ({ warned := false, countdown := true, invoiceGenerated := true,
             deleteScheduled := true }, forceCount + 1)
      else
        ({ warned := false, countdown := true, invoiceGenerated := true,
           deleteScheduled := true }, forceCount)
    | none =>
      ({ warned := false, countdown := true, invoiceGenerated := false,
         deleteScheduled := true }, forceCount)

/-! ### Concrete fixtures -/

/-- A sample catalog product. -/
def demoProduct : Product := { id := "p1", name := "Gold Pack", price := 999 / 100 }

/-- A sample pending order in channel `C1`. -/
def demoOrder : Order :=
  { id := "O1"
    status := "pending"
    createdAt := "2024-01-01T00:00:00.000Z"
    paidAt := none
    guildId := "G1"
    channelId := "C1"
    userId := "U1"
    userTag := "user#1"
    product := demoProduct
    payment := emptyPayment }

/-- The payment fields the Cryptomus webhook passes for a sample payment. -/
def demoFields : PaymentFields :=
  { method := some "crypto"
    provider := some "cryptomus"
    transactionId := some "tx-1"
    paidAmount := some "9.99" }

/-- A sample Cryptomus callback payload with a non-paid status. -/
def demoCryptomusPayload : CryptomusPayload :=
  { order_id := some "O2"
    status := some "confirm_check"
    uuid := none
    txid := none
    payment_uuid := none
    amount := none }

/-- A raw stored record with a field (`channelId`) the update below omits. -/
def demoOldRec : JsObj := [("id", "a"), ("channelId", "c")]

/-- A raw update record sharing `demoOldRec`'s id but omitting `channelId`. -/
def demoNewRec : JsObj := [("id", "a"), ("status", "paid")]

/-! ### Store lemmas -/

theorem getOrderById_id (id : String) (s : List Order) (o : Order)
    (h : getOrderById id s = some o) : o.id = id := by
  induction s with
  | nil => simp [getOrderById] at h
  | cons x xs ih =>
    by_cases hx : x.id = id
    · rw [getOrderById, if_pos hx] at h
      cases h
      exact hx
    · rw [getOrderById, if_neg hx] at h
      exact ih h

theorem getOrderById_upsertOrder (id : String) (o : Order) (s : List Order)
    (h : o.id = id) : getOrderById id (upsertOrder o s) = some o := by
  induction s with
  | nil => simp [upsertOrder, getOrderById, h]
  | cons x xs ih =>
    by_cases hx : x.id = o.id
    · rw [upsertOrder, if_pos hx, getOrderById, if_pos h]
    · rw [upsertOrder, if_neg hx, getOrderById, if_neg (fun he => hx (he.trans h.symm)), ih]

theorem upsertOrder_upsertOrder (o1 o2 : Order) (s : List Order) (h : o1.id = o2.id) :
    upsertOrder o2 (upsertOrder o1 s) = upsertOrder o2 s := by
  induction s with
  | nil => simp [upsertOrder, h]
  | cons x xs ih =>
    by_cases hx : x.id = o1.id
    · rw [upsertOrder, if_pos hx, upsertOrder, if_pos h, upsertOrder, if_pos (hx.trans h)]
    · rw [upsertOrder, if_neg hx, upsertOrder, if_neg (fun he => hx (he.trans h.symm)),
        upsertOrder, if_neg (fun he => hx (he.trans h.symm)), ih]

theorem markPaidOrder_markPaidOrder (o : Order) (f : PaymentFields) (t1 t2 : String) :
    markPaidOrder (markPaidOrder o f t1) f t2 = markPaidOrder o f t2 := rfl

theorem upsertStoreJs_insert (order : JsObj) (orders : List JsObj)
    (hall : ∀ o ∈ orders, jsLookup o "id" ≠ jsLookup order "id") :
    upsertStoreJs order orders = orders ++ [order] := by
  induction orders with
  | nil => rfl
  | cons x xs ih =>
    rw [upsertStoreJs, if_neg (hall x (List.mem_cons_self x xs)),
      ih (fun o ho => hall o (List.mem_cons_of_mem x ho)), List.cons_append]

theorem upsertStoreJs_replace (order : JsObj) (pre : List JsObj) (old : JsObj)
    (post : List JsObj)
    (hpre : ∀ o ∈ pre, jsLookup o "id" ≠ jsLookup order "id")
    (hold : jsLookup old "id" = jsLookup order "id") :
    upsertStoreJs order (pre ++ old :: post) = pre ++ jsMerge old order :: post := by
  induction pre with
  | nil => simp [upsertStoreJs, hold]
  | cons x xs ih =>
    rw [List.cons_append, upsertStoreJs, if_neg (hpre x (List.mem_cons_self x xs)),
      ih (fun o ho => hpre o (List.mem_cons_of_mem x ho)), List.cons_append]

/-! ### Sanity checks on the numeric model -/

theorem toFixed2_sample : toFixed2 (999 / 100) = "9.99" := by
  have h : jsRound ((999 : ℚ) / 100 * 100) = 999 := by norm_num [jsRound]
  simp only [toFixed2, h]
  decide

theorem jsRound_sample : jsRound ((1005 : ℚ) / 1000 * 100) = 101 := by
  norm_num [jsRound]

/-! ### Claim theorems -/

/-- C5 (confirmed): `markPaid` on an id absent from the store returns the
not-found signal `none` and leaves the stored order list unchanged. -/
theorem markPaid_unknown_id_noop (id : String) (f : PaymentFields) (now : String)
    (s : List Order) (h : getOrderById id s = none) :
    markPaid id f now s = (none, s) := by
  simp [markPaid, h]

theorem markPaid_unknown_id_noop_witness :
    getOrderById "O9" [demoOrder] = none ∧
    markPaid "O9" demoFields "T1" [demoOrder] = (none, [demoOrder]) :=
  ⟨by decide, markPaid_unknown_id_noop "O9" demoFields "T1" [demoOrder] (by decide)⟩

/-- C1, counterexample: replaying `markPaid` with the same payment fields at a
later wall-clock time does not leave the stored record identical — the second
call re-stamps `paidAt`, so the record read back after the second call differs
from the record after the first call. -/
theorem markPaid_twice_restamps_paidAt_cex :
    (getOrderById "O1"
        (markPaid "O1" demoFields "T2" (markPaid "O1" demoFields "T1" [demoOrder]).2).2).map
        Order.paidAt
      ≠ (getOrderById "O1" (markPaid "O1" demoFields "T1" [demoOrder]).2).map Order.paidAt := by
  decide

/-- Absorption of a replayed `markPaid`: shared helper for the idempotency
claims. -/
theorem markPaid_absorb (id : String) (f : PaymentFields)
    (t1 t2 : String) (s : List Order) :
    markPaid id f t2 (markPaid id f t1 s).2 = markPaid id f t2 s := by
  cases h : getOrderById id s with
  | none =>
    have h2 : (markPaid id f t1 s).2 = s := by simp [markPaid, h]
    rw [h2]
  | some o =>
    have hid : o.id = id := getOrderById_id id s o h
    have h1 : (markPaid id f t1 s).2 = upsertOrder (markPaidOrder o f t1) s := by
      simp [markPaid, h]
    have h2 : getOrderById id (upsertOrder (markPaidOrder o f t1) s)
        = some (markPaidOrder o f t1) :=
      getOrderById_upsertOrder id _ s hid
    rw [h1]
    show (match getOrderById id (upsertOrder (markPaidOrder o f t1) s) with
      | none => (none, upsertOrder (markPaidOrder o f t1) s)
      | some o2 => (some (markPaidOrder o2 f t2),
          upsertOrder (markPaidOrder o2 f t2) (upsertOrder (markPaidOrder o f t1) s)))
      = markPaid id f t2 s
    rw [h2]
    show (some (markPaidOrder (markPaidOrder o f t1) f t2),
        upsertOrder (markPaidOrder (markPaidOrder o f t1) f t2)
          (upsertOrder (markPaidOrder o f t1) s)) = markPaid id f t2 s
    rw [markPaidOrder_markPaidOrder,
      upsertOrder_upsertOrder (markPaidOrder o f t1) (markPaidOrder o f t2) s rfl]
    simp [markPaid, h]

/-- C1 (corrected): calling `markPaid(orderId, P)` twice with the same `P`
leaves the store (and the returned order) exactly as a single call made at the
second call's time: `status` stays `paid` and every field agrees, except that
`paidAt` holds the second call's timestamp. -/
theorem markPaid_twice_eq_markPaid_second (id : String) (f : PaymentFields)
    (t1 t2 : String) (s : List Order) :
    markPaid id f t2 (markPaid id f t1 s).2 = markPaid id f t2 s :=
  markPaid_absorb id f t1 t2 s

/-- C10 (confirmed): every `markPaid` call on an existing order overwrites
`paidAt` with the call's current timestamp, so a redelivered paid webhook
replaces the `paidAt` written by the first delivery with the second delivery's
time. -/
theorem markPaid_overwrites_paidAt (id : String) (f : PaymentFields) (t1 t2 : String)
    (s : List Order) (o : Order) (h : getOrderById id s = some o) :
    (getOrderById id (markPaid id f t1 s).2).map Order.paidAt = some (some t1) ∧
    (getOrderById id (markPaid id f t2 (markPaid id f t1 s).2).2).map Order.paidAt
      = some (some t2) := by
  have hid : o.id = id := getOrderById_id id s o h
  have h1 : (markPaid id f t1 s).2 = upsertOrder (markPaidOrder o f t1) s := by
    simp [markPaid, h]
  have h2 : getOrderById id (upsertOrder (markPaidOrder o f t1) s)
      = some (markPaidOrder o f t1) :=
    getOrderById_upsertOrder id _ s hid
  constructor
  · rw [h1, h2]
    rfl
  · rw [markPaid_absorb]
    simp only [markPaid, h]
    rw [getOrderById_upsertOrder id _ s (show (markPaidOrder o f t2).id = id from hid)]
    rfl

theorem markPaid_overwrites_paidAt_witness :
    getOrderById "O1" [demoOrder] = some demoOrder ∧
    ((getOrderById "O1" (markPaid "O1" demoFields "T1" [demoOrder]).2).map Order.paidAt
        = some (some "T1") ∧
      (getOrderById "O1"
          (markPaid "O1" demoFields "T2" (markPaid "O1" demoFields "T1" [demoOrder]).2).2).map
          Order.paidAt = some (some "T2")) :=
  ⟨rfl, markPaid_overwrites_paidAt "O1" demoFields "T1" "T2" [demoOrder] demoOrder rfl⟩

/-- C9 (confirmed): the operations that touch a stored order after its
creation — `markPaid` and the upserts of the two pay-button handlers — leave
the stored record's `id` and `product` snapshot exactly as they were. -/
theorem updates_preserve_product_snapshot (oid : String) (f : PaymentFields) (now : String)
    (invUrl invUuid sUrl sId : Option String) (s : List Order) (o : Order)
    (h : getOrderById oid s = some o) :
    (getOrderById oid (markPaid oid f now s).2).map (fun r => (r.id, r.product))
        = some (o.id, o.product) ∧
    (getOrderById oid (payCryptoHandler oid invUrl invUuid s).1).map (fun r => (r.id, r.product))
        = some (o.id, o.product) ∧
    (getOrderById oid (payStripeHandler oid sUrl sId s).1).map (fun r => (r.id, r.product))
        = some (o.id, o.product) := by
  have hid : o.id = oid := getOrderById_id oid s o h
  refine ⟨?_, ?_, ?_⟩
  · simp only [markPaid, h]
    rw [getOrderById_upsertOrder oid _ s (show (markPaidOrder o f now).id = oid from hid)]
    rfl
  · by_cases hp : o.status = "paid"
    · simp [payCryptoHandler, h, hp]
    · simp only [payCryptoHandler, h, if_neg hp]
      rw [getOrderById_upsertOrder oid _ s
        (show (payCryptoUpdate o invUrl invUuid).id = oid from hid)]
      rfl
  · by_cases hp : o.status = "paid"
    · simp [payStripeHandler, h, hp]
    · simp only [payStripeHandler, h, if_neg hp]
      rw [getOrderById_upsertOrder oid _ s
        (show (payStripeUpdate o sUrl sId).id = oid from hid)]
      rfl

theorem updates_preserve_product_snapshot_witness :
    getOrderById "O1" [demoOrder] = some demoOrder ∧
    ((getOrderById "O1" (markPaid "O1" demoFields "T1" [demoOrder]).2).map
        (fun r => (r.id, r.product)) = some (demoOrder.id, demoOrder.product) ∧
      (getOrderById "O1" (payCryptoHandler "O1" (some "u") (some "x") [demoOrder]).1).map
        (fun r => (r.id, r.product)) = some (demoOrder.id, demoOrder.product) ∧
      (getOrderById "O1" (payStripeHandler "O1" (some "u") (some "x") [demoOrder]).1).map
        (fun r => (r.id, r.product)) = some (demoOrder.id, demoOrder.product)) :=
  ⟨rfl, updates_preserve_product_snapshot "O1" demoFields "T1"
    (some "u") (some "x") (some "u") (some "x") [demoOrder] demoOrder rfl⟩

/-- C7 (confirmed): a Crypto webhook payload with a truthy `order_id` whose
normalised status is outside the paid set is acknowledged with HTTP `200`,
the store is unchanged and no notification is posted; only a status in
`paidStatuses` reaches `markPaid`. -/
theorem cryptomusWebhook_nonpaid_status_ack (secret : Option String)
    (p : CryptomusPayload) (now : String) (s : List Order) (oid : String)
    (h1 : truthy p.order_id = some oid)
    (h2 : cryptomusStatusOf p ∉ paidStatuses) :
    cryptomusWebhook secret p now s = ⟨200, s, []⟩ := by
  have ht : isCryptomusWebhookTrusted secret = true := by
    unfold isCryptomusWebhookTrusted
    cases truthy secret <;> rfl
  simp [cryptomusWebhook, ht, h1, h2]

theorem cryptomusWebhook_nonpaid_status_ack_witness :
    truthy demoCryptomusPayload.order_id = some "O2" ∧
    cryptomusStatusOf demoCryptomusPayload ∉ paidStatuses ∧
    cryptomusWebhook none demoCryptomusPayload "T1" [demoOrder] = ⟨200, [demoOrder], []⟩ :=
  ⟨by decide, by decide,
    cryptomusWebhook_nonpaid_status_ack none demoCryptomusPayload "T1" [demoOrder] "O2"
      (by decide) (by decide)⟩

/-- C2, counterexample: with a webhook secret configured and signature
verification failing (the `constructEvent` exception, modelled as `none`), the
Card webhook endpoint responds `200`, not `401` — the catch clause swallows
the verification error. -/
theorem stripeWebhook_sigfail_returns_200_cex :
    (stripeWebhook true (some "whsec_demo") none none "T1" [demoOrder]).httpStatus = 200 ∧
    (stripeWebhook true (some "whsec_demo") none none "T1" [demoOrder]).httpStatus ≠ 401 ∧
    (stripeWebhook true (some "whsec_demo") none none "T1" [demoOrder]).store = [demoOrder] ∧
    (stripeWebhook true (some "whsec_demo") none none "T1" [demoOrder]).notified = [] :=
  ⟨rfl, by decide, rfl, rfl⟩

/-- C2 (corrected): the Card webhook endpoint responds `200` on every outcome,
signature-verification failure included; no input produces a `401` from this
endpoint. -/
theorem stripeWebhook_always_200 (keyPresent : Bool) (whSecret : Option String)
    (constructedEvent parsedEvent : Option StripeEvent) (now : String) (s : List Order) :
    (stripeWebhook keyPresent whSecret constructedEvent parsedEvent now s).httpStatus = 200 := by
  unfold stripeWebhook
  repeat' split
  all_goals rfl

/-- C3, counterexample: the `choose_prod` handler of `src/crystal/index.js`
performs no existing-order check — selecting a product in a channel that
already holds a pending order stores a second pending order for the same
channel. -/
theorem chooseProd_creates_duplicate_pending_cex :
    (pendingOrdersFor "C1"
      (chooseProd [demoProduct] "p1" "O2" "T2"
        { guildId := "G1", channelId := "C1", userId := "U1", userTag := "user#1" }
        [demoOrder]).1).length = 2 := by
  decide

/-- C3 (corrected): the guarded `choose_prod` handler of
`src/unnamed/part_004` rejects a product selection in a channel whose existing
order is still `pending` and leaves the store unchanged, so no second order is
created there. -/
theorem chooseProdV4_no_second_pending_order (inTicketChannel isOwnerOrStaff : Bool)
    (products : List Product) (prodId orderId now : String) (ctx : ChooseCtx)
    (s : List Order) (ex : Order)
    (h1 : getOrderByChannelId ctx.channelId s = some ex)
    (h2 : ex.status = "pending") :
    (chooseProdV4 inTicketChannel isOwnerOrStaff products prodId orderId now ctx s).1 = s := by
  have hne : ex.status ≠ "paid" := by rw [h2]; decide
  unfold chooseProdV4
  split
  · rfl
  split
  · rfl
  split
  · rfl
  rw [h1]
  simp [hne]

theorem chooseProdV4_no_second_pending_order_witness :
    getOrderByChannelId "C1" [demoOrder] = some demoOrder ∧
    demoOrder.status = "pending" ∧
    (chooseProdV4 true true [demoProduct] "p1" "O2" "T2"
      { guildId := "G1", channelId := "C1", userId := "U1", userTag := "user#1" }
      [demoOrder]).1 = [demoOrder] :=
  ⟨rfl, rfl,
    chooseProdV4_no_second_pending_order true true [demoProduct] "p1" "O2" "T2"
      { guildId := "G1", channelId := "C1", userId := "U1", userTag := "user#1" }
      [demoOrder] demoOrder rfl rfl⟩

/-- C4 (confirmed): on a ticket channel whose order is not `paid`, the first
authorized `+dn` neither generates an invoice nor schedules the channel
deletion (it only warns and raises the force counter to 1); the second
authorized `+dn` does both. -/
theorem dn_force_close_requires_second_command (channelName : String) (o : Order)
    (hname : strStartsWith channelName "ticket-" = true)
    (hstatus : o.status ≠ "paid") :
    (dnHandler true channelName "+dn" true false (some o) 0).1.invoiceGenerated = false ∧
    (dnHandler true channelName "+dn" true false (some o) 0).1.deleteScheduled = false ∧
    (dnHandler true channelName "+dn" true false (some o) 0).1.warned = true ∧
    (dnHandler true channelName "+dn" true false (some o) 0).2 = 1 ∧
    (dnHandler true channelName "+dn" true false (some o) 1).1.invoiceGenerated = true ∧
    (dnHandler true channelName "+dn" true false (some o) 1).1.deleteScheduled = true := by
  have htrim : strTrim "+dn" = "+dn" := by decide
  unfold dnHandler
  rw [hname]
  simp [htrim, hstatus]

theorem dn_force_close_requires_second_command_witness :
    strStartsWith "ticket-42" "ticket-" = true ∧
    demoOrder.status ≠ "paid" ∧
    ((dnHandler true "ticket-42" "+dn" true false (some demoOrder) 0).1.invoiceGenerated = false ∧
      (dnHandler true "ticket-42" "+dn" true false (some demoOrder) 0).1.deleteScheduled = false ∧
      (dnHandler true "ticket-42" "+dn" true false (some demoOrder) 0).1.warned = true ∧
      (dnHandler true "ticket-42" "+dn" true false (some demoOrder) 0).2 = 1 ∧
      (dnHandler true "ticket-42" "+dn" true false (some demoOrder) 1).1.invoiceGenerated = true ∧
      (dnHandler true "ticket-42" "+dn" true false (some demoOrder) 1).1.deleteScheduled = true) :=
  ⟨by decide, by decide,
    dn_force_close_requires_second_command "ticket-42" demoOrder (by decide) (by decide)⟩

/-- C6, counterexample: on a replace, `upsertOrder` stores the shallow merge
of the new fields over the old record but returns the bare argument; when the
old record holds a field the argument omits (`channelId` here), the returned
value is not the record as stored. -/
theorem upsertOrderJs_return_ne_stored_cex :
    (upsertOrderJs demoNewRec [demoOldRec]).1
        = [[("id", "a"), ("channelId", "c"), ("status", "paid")]] ∧
    (upsertOrderJs demoNewRec [demoOldRec]).2 = demoNewRec ∧
    ([("id", "a"), ("channelId", "c"), ("status", "paid")] : JsObj) ≠ demoNewRec := by
  decide

/-- C6 (corrected): `upsert(o)` appends `o` when no stored record shares its
id, otherwise replaces the first matching record with the shallow merge of
`o`'s fields over the old ones; in both cases it returns the argument `o`
itself, which coincides with the stored record in the insert case but not in
general in the replace case. -/
theorem upsertOrderJs_spec (order : JsObj) (orders : List JsObj) :
    (upsertOrderJs order orders).2 = order ∧
    ((∀ o ∈ orders, jsLookup o "id" ≠ jsLookup order "id") →
      (upsertOrderJs order orders).1 = orders ++ [order]) ∧
    (∀ pre old post, orders = pre ++ old :: post →
      (∀ o ∈ pre, jsLookup o "id" ≠ jsLookup order "id") →
      jsLookup old "id" = jsLookup order "id" →
      (upsertOrderJs order orders).1 = pre ++ jsMerge old order :: post) := by
  refine ⟨rfl, ?_, ?_⟩
  · intro hall
    exact upsertStoreJs_insert order orders hall
  · intro pre old post heq hpre hold
    show upsertStoreJs order orders = pre ++ jsMerge old order :: post
    rw [heq]
    exact upsertStoreJs_replace order pre old post hpre hold

theorem upsertOrderJs_spec_witness :
    (upsertOrderJs [("id", "b")] [demoOldRec]).1 = [demoOldRec] ++ [[("id", "b")]] ∧
    (upsertOrderJs demoNewRec [demoOldRec]).1 = [] ++ jsMerge demoOldRec demoNewRec :: [] :=
  ⟨(upsertOrderJs_spec [("id", "b")] [demoOldRec]).2.1 (by decide),
    (upsertOrderJs_spec demoNewRec [demoOldRec]).2.2 [] demoOldRec [] rfl (by decide) (by decide)⟩

/-- C8 (confirmed, over exact rationals): the Card adapter's checkout request
carries the integer minor-unit amount `round(amount * 100)` (Mathlib `round`
is round-half-up, the rounding `Math.round` performs), and the Crypto
adapter's invoice body carries the amount as a decimal string whose fractional
part has exactly two digits. -/
theorem adapters_amount_formatting (amountUsd : ℚ) (orderId productName : String)
    (successUrl cancelUrl description su cb : Option String) :
    (createStripeCheckout amountUsd orderId productName successUrl cancelUrl).unit_amount
        = round (amountUsd * 100) ∧
    ∃ intPart fracPart,
      (createCryptomusInvoiceBody amountUsd orderId description su cb).amount
          = intPart ++ "." ++ fracPart ∧ fracPart.length = 2 := by
  constructor
  · show jsRound (amountUsd * 100) = round (amountUsd * 100)
    rw [jsRound, round_eq]
  · exact ⟨toString ((jsRound (amountUsd * 100)).toNat / 100),
      String.mk [digitChar ((jsRound (amountUsd * 100)).toNat / 10 % 10),
        digitChar ((jsRound (amountUsd * 100)).toNat % 10)], rfl, rfl⟩

end Fui


